import Mathlib

/-!
Verification of DistanceRouteCalculator (route_calculator.py), a client-side
wrapper around the OSRM routing service.

The Python source is shallowly embedded as follows.
* Python floats are modelled as exact rationals; decimal literals such as
  0.621371 denote the corresponding rational.
* The HTTP transport is modelled as a function from the request data
  (endpoint string, query parameters, attempt number) to either a
  transport-level failure message or a decoded JSON response; the decoded
  responses are modelled as records whose fields are the keys the code reads,
  each an Option because the code accesses every key with dict.get.
* Each Python raise site, together with the runtime errors the code can hit
  (IndexError from indexing an empty list, AttributeError from calling .get
  on None), becomes one constructor of the PyError inductive.
* Python's builtin min, max and sorted with a key function are translated by
  their documented semantics: min and max return the first extremal element,
  and sorted is stable.
-/

/-- Opaque JSON payload fragments (turn-by-turn step dictionaries, echoed
waypoint objects) that the wrapper passes through verbatim without ever
inspecting their contents. -/
structure RawJson where
  raw : String
deriving DecidableEq

/-- The RouteProfile enum of route_calculator.py. -/
inductive RouteProfile where
  | driving
  | truck
deriving DecidableEq

/-- The .value string of a RouteProfile enum member. -/
def RouteProfile.value : RouteProfile → String
  | .driving => "driving"
  | .truck => "truck"

/-- The default weight label literal used by get_routes. -/
def routabilityName : String := "routability"

/-- The OSRM success sentinel status code. -/
def okCode : String := "Ok"

/-- The default message substituted when the service supplies no message. -/
def unknownErrorMsg : String := "Unknown error"

/-- The RouteOption dataclass: a single route option with its metrics. -/
structure RouteOption where
  distance_meters : ℚ
  duration_seconds : ℚ
  weight : ℚ
  weight_name : String
  geometry : Option (List (List ℚ)) := none
  steps : Option (List RawJson) := none
deriving DecidableEq

/-- RouteOption.distance_km property: distance in kilometers. -/
def RouteOption.distance_km (r : RouteOption) : ℚ :=
  r.distance_meters / 1000.0

/-- RouteOption.duration_minutes property: duration in minutes. -/
def RouteOption.duration_minutes (r : RouteOption) : ℚ :=
  r.duration_seconds / 60.0

/-- RouteOption.estimated_fuel_cost property: km converted to miles, divided
by 8 MPG, times 3.50 dollars per gallon. -/
def RouteOption.estimated_fuel_cost (r : RouteOption) : ℚ :=
  r.distance_km * 0.621371 / 8.0 * 3.50

/-- RouteOption.truck_suitability_score property: a step function of the
route duration in seconds. -/
def RouteOption.truck_suitability_score (r : RouteOption) : ℚ :=
  if r.duration_seconds < 300 then 0.9
  else if r.duration_seconds < 900 then 0.8
  else if r.duration_seconds < 1800 then 0.7
  else 0.6

/-- Python's builtin min with a key function, on a nonempty list given as a
head and a tail.  A later element replaces the current minimum only when its
key is strictly smaller, so the first element attaining the minimal key is
returned, exactly as Python's min documents. -/
def pyMinCons {α : Type} (f : α → ℚ) (x : α) : List α → α
  | [] => x
  | y :: ys =>
    let m := pyMinCons f y ys
    if f m < f x then m else x

/-- Python's builtin min with a key function; none models the ValueError
raised on an empty sequence. -/
def pyMinBy {α : Type} (f : α → ℚ) : List α → Option α
  | [] => none
  | x :: xs => some (pyMinCons f x xs)

/-- Python's builtin max with a key function, on a nonempty list given as a
head and a tail; the first element attaining the maximal key is returned. -/
def pyMaxCons {α : Type} (f : α → ℚ) (x : α) : List α → α
  | [] => x
  | y :: ys =>
    let m := pyMaxCons f y ys
    if f x < f m then m else x

/-- Python's builtin max with a key function; none models the ValueError
raised on an empty sequence. -/
def pyMaxBy {α : Type} (f : α → ℚ) : List α → Option α
  | [] => none
  | x :: xs => some (pyMaxCons f x xs)

/-- Python's builtin min over a plain list of numbers. -/
def pyListMin (l : List ℚ) : Option ℚ := pyMinBy (fun q => q) l

/-- Python's builtin max over a plain list of numbers. -/
def pyListMax (l : List ℚ) : Option ℚ := pyMaxBy (fun q => q) l

/-- The RouteResult dataclass: the outcome of one origin-destination query. -/
structure RouteResult where
  origin : ℚ × ℚ
  destination : ℚ × ℚ
  routes : List RouteOption
  fastest_route : RouteOption
  shortest_route : Option RouteOption := none
deriving DecidableEq

/-- RouteResult.distance_range property; the Options model the ValueError
Python's min and max raise on an empty route list. -/
def RouteResult.distance_range (r : RouteResult) : Option ℚ × Option ℚ :=
  (pyListMin (r.routes.map RouteOption.distance_km),
   pyListMax (r.routes.map RouteOption.distance_km))

/-- RouteResult.duration_range property. -/
def RouteResult.duration_range (r : RouteResult) : Option ℚ × Option ℚ :=
  (pyListMin (r.routes.map RouteOption.duration_minutes),
   pyListMax (r.routes.map RouteOption.duration_minutes))

/-- RouteResult.total_fuel_cost_range property. -/
def RouteResult.total_fuel_cost_range (r : RouteResult) : Option ℚ × Option ℚ :=
  (pyListMin (r.routes.map RouteOption.estimated_fuel_cost),
   pyListMax (r.routes.map RouteOption.estimated_fuel_cost))

/-- RouteResult.best_truck_route property: max of the routes by truck
suitability score. -/
def RouteResult.best_truck_route (r : RouteResult) : Option RouteOption :=
  pyMaxBy RouteOption.truck_suitability_score r.routes

/-- RouteResult.most_efficient_route property: min of the routes by
estimated fuel cost. -/
def RouteResult.most_efficient_route (r : RouteResult) : Option RouteOption :=
  pyMinBy RouteOption.estimated_fuel_cost r.routes

/-- One leg object of a service route entry; the code only ever reads its
steps key. -/
structure LegData where
  steps : Option (List RawJson) := none
deriving DecidableEq

/-- The empty dict used as the fallback first leg when the legs key is
absent from a route entry. -/
def emptyLeg : LegData := {}

/-- One route entry of a service response to a route request, restricted to
the keys get_routes reads; every field is an Option because each key is
accessed with dict.get. -/
structure RouteData where
  distance : Option ℚ := none
  duration : Option ℚ := none
  weight : Option ℚ := none
  weight_name : Option String := none
  geometry : Option (List (List ℚ)) := none
  legs : Option (List LegData) := none
deriving DecidableEq

/-- A decoded JSON response to a route request, restricted to the keys
get_routes reads. -/
structure RouteResponse where
  code : Option String := none
  message : Option String := none
  routes : Option (List RouteData) := none
deriving DecidableEq

/-- A decoded JSON response to a table request, restricted to the keys
get_distance_matrix reads. -/
structure TableResponse where
  code : Option String := none
  message : Option String := none
  durations : Option (List (List ℚ)) := none
  distances : Option (List (List ℚ)) := none
  sources : Option (List RawJson) := none
  destinations : Option (List RawJson) := none
deriving DecidableEq

/-- The dictionary returned by get_distance_matrix. -/
structure MatrixResult where
  durations : List (List ℚ)
  distances : List (List ℚ)
  sources : List RawJson
  destinations : List RawJson
deriving DecidableEq

/-- The failures of the wrapper.  The first four constructors are the raise
sites of route_calculator.py (each carrying the data its f-string message
interpolates): transportError is the exception raised after the retry budget
is exhausted, carrying the configured attempt count and the message of the
last underlying failure; routingServiceError and tableServiceError are the
non-Ok-status exceptions of get_routes and get_distance_matrix, carrying the
service-supplied message; noRouteFoundError is the empty-route-list
exception of get_routes.  indexError models Python's IndexError from
indexing into an empty list, and noneTypeAttributeError models the
AttributeError from calling .get on None. -/
inductive PyError where
  | transportError (attempts : Int) (lastFailure : String)
  | routingServiceError (message : String)
  | tableServiceError (message : String)
  | noRouteFoundError
  | indexError
  | noneTypeAttributeError
deriving DecidableEq

/-- Python range(n) for an int argument: the empty list when n is not
positive. -/
def pyRange (n : Int) : List Nat := List.range n.toNat

/-- The retry loop of _make_request, iterating over the given list of
attempt numbers.  The outcome of each HTTP attempt is supplied by the
outcomes function (a transport failure message or a decoded response).
Returns the number of attempts actually made, the list of backoff sleeps
performed (2 ^ attempt time units each), and the result: Except.ok none
models falling off the end of the loop and implicitly returning None. -/
def requestLoop {J : Type} (maxRetries : Int) (outcomes : Nat → Except String J) :
    List Nat → Nat × List Nat × Except PyError (Option J)
  | [] => (0, [], .ok none)
  | attempt :: rest =>
    match outcomes attempt with
    | .ok j => (1, [], .ok (some j))
    | .error e =>
      if (attempt : Int) = maxRetries - 1 then
        (1, [], .error (.transportError maxRetries e))
      else
        let r := requestLoop maxRetries outcomes rest
        (r.1 + 1, 2 ^ attempt :: r.2.1, r.2.2)

/-- The _make_request method: run the retry loop over
range(self.max_retries). -/
def makeRequest {J : Type} (maxRetries : Int) (outcomes : Nat → Except String J) :
    Nat × List Nat × Except PyError (Option J) :=
  requestLoop maxRetries outcomes (pyRange maxRetries)

/-- Parsing of one service route entry into a RouteOption, as done in the
loop body of get_routes.  distance and duration default to 0, weight
defaults to the entry's duration (itself defaulting to 0), the weight label
defaults to "routability", geometry is passed through verbatim, and steps
are read from the first leg only when include_steps is set; indexing the
first element of an explicitly empty legs list is an IndexError, while an
absent legs key falls back to a one-element list holding an empty dict. -/
def parseRoute (include_steps : Bool) (rd : RouteData) : Except PyError RouteOption :=
  match include_steps with
  | true =>
    match rd.legs.getD [emptyLeg] with
    | [] => .error .indexError
    | leg :: _ =>
      .ok { distance_meters := rd.distance.getD 0
            duration_seconds := rd.duration.getD 0
            weight := rd.weight.getD (rd.duration.getD 0)
            weight_name := rd.weight_name.getD routabilityName
            geometry := rd.geometry
            steps := some (leg.steps.getD []) }
  | false =>
      .ok { distance_meters := rd.distance.getD 0
            duration_seconds := rd.duration.getD 0
            weight := rd.weight.getD (rd.duration.getD 0)
            weight_name := rd.weight_name.getD routabilityName
            geometry := rd.geometry
            steps := none }

/-- The parsing loop of get_routes over all returned route entries,
stopping at the first entry whose parsing raises. -/
def parseRoutes (include_steps : Bool) : List RouteData → Except PyError (List RouteOption)
  | [] => .ok []
  | rd :: rest =>
    match parseRoute include_steps rd with
    | .error e => .error e
    | .ok r =>
      match parseRoutes include_steps rest with
      | .error e => .error e
      | .ok rs => .ok (r :: rs)

/-- Stable insertion of a route into a list sorted by distance_meters:
the inserted element goes before the first strictly-or-equally larger
element, preserving the relative order of equal keys. -/
def insertByDistance (x : RouteOption) : List RouteOption → List RouteOption
  | [] => [x]
  | y :: ys =>
    if x.distance_meters ≤ y.distance_meters then x :: y :: ys
    else y :: insertByDistance x ys

/-- Python's stable sorted(routes, key=lambda r: r.distance_meters),
translated as a stable insertion sort. -/
def sortedByDistance : List RouteOption → List RouteOption
  | [] => []
  | x :: xs => insertByDistance x (sortedByDistance xs)

/-- The response-handling part of get_routes: validate the status code,
parse the route entries, reject an empty route list, and build the
RouteResult with the fastest route (min by duration) and, only when more
than one route was returned, the shortest route (the head of the
distance-sorted list). -/
def getRoutesFromResponse (origin destination : ℚ × ℚ) (include_steps : Bool)
    (resp : RouteResponse) : Except PyError RouteResult :=
  if resp.code ≠ some okCode then
    .error (.routingServiceError (resp.message.getD unknownErrorMsg))
  else
    match parseRoutes include_steps (resp.routes.getD []) with
    | .error e => .error e
    | .ok [] => .error .noRouteFoundError
    | .ok (r0 :: rs) =>
      .ok { origin := origin
            destination := destination
            routes := r0 :: rs
            fastest_route := pyMinCons (fun r => r.duration_seconds) r0 rs
            shortest_route :=
              if 1 < (sortedByDistance (r0 :: rs)).length
              then (sortedByDistance (r0 :: rs)).head? else none }

/-- The coordinate pair formatted as lon,lat. -/
def coordStr (c : ℚ × ℚ) : String := toString c.1 ++ "," ++ toString c.2

/-- The request path built by get_routes. -/
def routeEndpoint (profile : RouteProfile) (origin destination : ℚ × ℚ) : String :=
  "/route/v1/" ++ profile.value ++ "/" ++ coordStr origin ++ ";" ++ coordStr destination

/-- The query parameters built by get_routes. -/
def routeParams (alternatives : Int) (include_geometry include_steps : Bool) :
    List (String × String) :=
  [("alternatives", toString alternatives),
   ("overview", if include_geometry then "full" else "false"),
   ("steps", if include_steps then "true" else "false"),
   ("annotations", "distance,duration")]

/-- The get_routes method, end to end: build the endpoint and parameters,
make the transported request with retry, and handle the response.  A request
result of none (the implicit None returned by _make_request when the retry
loop body never runs) makes the subsequent response.get call an
AttributeError. -/
def getRoutes (maxRetries : Int)
    (transport : String → List (String × String) → Nat → Except String RouteResponse)
    (profile : RouteProfile) (origin destination : ℚ × ℚ) (alternatives : Int)
    (include_geometry include_steps : Bool) : Except PyError RouteResult :=
  match (makeRequest maxRetries
      (transport (routeEndpoint profile origin destination)
        (routeParams alternatives include_geometry include_steps))).2.2 with
  | .error e => .error e
  | .ok none => .error .noneTypeAttributeError
  | .ok (some resp) => getRoutesFromResponse origin destination include_steps resp

/-- Python str.join with a separator over a list of strings. -/
def joinSep (sep : String) : List String → String
  | [] => ""
  | [x] => x
  | x :: xs => x ++ sep ++ joinSep sep xs

/-- The request path built by get_distance_matrix; total also for the empty
coordinate list. -/
def tableEndpoint (profile : RouteProfile) (coordinates : List (ℚ × ℚ)) : String :=
  "/table/v1/" ++ profile.value ++ "/" ++ joinSep (";") (coordinates.map coordStr)

/-- The query parameters built by get_distance_matrix, with the optional
comma-joined source and destination index lists. -/
def tableParams (sources destinations : Option (List Int)) : List (String × String) :=
  [("annotations", "duration,distance")] ++
  (match sources with
   | none => []
   | some s => [("sources", joinSep (",") (s.map toString))]) ++
  (match destinations with
   | none => []
   | some d => [("destinations", joinSep (",") (d.map toString))])

/-- The get_distance_matrix method, end to end: build the endpoint and
parameters, make the transported request with retry, validate the status
code, and collect the four response fields with empty-list defaults. -/
def getDistanceMatrix (maxRetries : Int)
    (transport : String → List (String × String) → Nat → Except String TableResponse)
    (profile : RouteProfile) (coordinates : List (ℚ × ℚ))
    (sources destinations : Option (List Int)) : Except PyError MatrixResult :=
  match (makeRequest maxRetries
      (transport (tableEndpoint profile coordinates)
        (tableParams sources destinations))).2.2 with
  | .error e => .error e
  | .ok none => .error .noneTypeAttributeError
  | .ok (some resp) =>
    if resp.code ≠ some okCode then
      .error (.tableServiceError (resp.message.getD unknownErrorMsg))
    else
      .ok { durations := resp.durations.getD []
            distances := resp.distances.getD []
            sources := resp.sources.getD []
            destinations := resp.destinations.getD [] }

/-- The is_healthy method: a single-alternative route request between two
fixed reference coordinates, with every failure converted to false. -/
def isHealthy (maxRetries : Int)
    (transport : String → List (String × String) → Nat → Except String RouteResponse)
    (profile : RouteProfile) : Bool :=
  match getRoutes maxRetries transport profile
      (-74.0060, 40.7128) (-73.9352, 40.7306) 1 false false with
  | .ok _ => true
  | .error _ => false

/-- The property that m is the first element of l attaining the minimal
value of f: m occurs in l at an index before which every element has a
strictly larger f-value, and no element of l has a smaller one. -/
def firstMinBy {α : Type} (f : α → ℚ) (l : List α) (m : α) : Prop :=
  m ∈ l ∧ (∀ r ∈ l, f m ≤ f r) ∧
  ∃ i, l.get? i = some m ∧ ∀ j, j < i → ∀ r, l.get? j = some r → f m < f r

/-- A transport that answers every request, on every attempt, with the same
decoded response. -/
def constTransport {J : Type} (resp : J) :
    String → List (String × String) → Nat → Except String J :=
  fun _ _ _ => .ok resp

/-- A sample route entry: 5000 m, 600 s, no optional payloads. -/
def rdA : RouteData := { distance := some 5000, duration := some 600 }

/-- A sample route entry: 4000 m, 700 s, no optional payloads. -/
def rdB : RouteData := { distance := some 4000, duration := some 700 }

/-- A sample successful response carrying two routes. -/
def respTwo : RouteResponse := { code := some okCode, routes := some [rdA, rdB] }

/-- A sample success-status response with an empty route list. -/
def respOkEmpty : RouteResponse := { code := some okCode, routes := some [] }

/-- A sample error code reported by the service. -/
def badCode : String := "InvalidQuery"

/-- A sample error message supplied by the service. -/
def badMsg : String := "Query string malformed"

/-- A sample non-Ok response carrying a service message. -/
def respBadReq : RouteResponse := { code := some badCode, message := some badMsg }

/-- The RouteOption parsed from rdA. -/
def roA : RouteOption :=
  { distance_meters := 5000, duration_seconds := 600, weight := 600,
    weight_name := routabilityName }

/-- The RouteOption parsed from rdB. -/
def roB : RouteOption :=
  { distance_meters := 4000, duration_seconds := 700, weight := 700,
    weight_name := routabilityName }

/-- The RouteResult produced by get_routes from respTwo. -/
def resultTwo : RouteResult :=
  { origin := (0, 0), destination := (1, 1), routes := [roA, roB],
    fastest_route := roA, shortest_route := some roB }

/-- A sample successful table response. -/
def tableRespA : TableResponse :=
  { code := some okCode, durations := some [[0, 10], [12, 0]],
    distances := some [[0, 100], [120, 0]] }

/-- A sample non-Ok table response carrying a service message. -/
def tableRespBad : TableResponse := { code := some badCode, message := some badMsg }

/-- A sample transport failure message. -/
def connRefusedMsg : String := "connection refused"

/-- A route entry with every key absent. -/
def rdNone : RouteData := {}

/-- The RouteOption parsed from rdNone with include_steps set. -/
def roNoneSteps : RouteOption :=
  { distance_meters := 0, duration_seconds := 0, weight := 0,
    weight_name := routabilityName, steps := some [] }

/-- A route entry whose legs key is present but holds an empty list. -/
def rdEmptyLegs : RouteData := { legs := some [] }

/-- A RouteOption with a given duration and all other fields trivial. -/
def roDur (d : ℚ) : RouteOption :=
  { distance_meters := 0, duration_seconds := d, weight := d,
    weight_name := routabilityName }

/-- pyMinCons returns the first element of the nonempty list attaining the
minimal key. -/
theorem pyMinCons_firstMinBy {α : Type} (f : α → ℚ) (x : α) (xs : List α) :
    firstMinBy f (x :: xs) (pyMinCons f x xs) := by
  induction xs generalizing x with
  | nil =>
    refine ⟨List.mem_singleton.mpr rfl, ?_, 0, rfl, ?_⟩
    · intro r hr
      rw [List.mem_singleton] at hr
      subst hr
      exact le_refl _
    · intro j hj
      exact absurd hj (Nat.not_lt_zero j)
  | cons y ys ih =>
    obtain ⟨hmem, hle, i, hi, hfirst⟩ := ih y
    show firstMinBy f (x :: y :: ys) (pyMinCons f x (y :: ys))
    simp only [pyMinCons]
    by_cases h : f (pyMinCons f y ys) < f x
    · rw [if_pos h]
      refine ⟨List.mem_cons_of_mem x hmem, ?_, i + 1, ?_, ?_⟩
      · intro r hr
        rcases List.mem_cons.mp hr with h1 | h2
        · subst h1
          exact le_of_lt h
        · exact hle r h2
      · simpa using hi
      · intro j hj r hjr
        cases j with
        | zero =>
          rw [List.get?_cons_zero, Option.some.injEq] at hjr
          subst hjr
          exact h
        | succ k =>
          rw [List.get?_cons_succ] at hjr
          exact hfirst k (Nat.lt_of_succ_lt_succ hj) r hjr
    · rw [if_neg h]
      refine ⟨List.mem_cons_self x (y :: ys), ?_, 0, rfl, ?_⟩
      · intro r hr
        rcases List.mem_cons.mp hr with h1 | h2
        · subst h1
          exact le_refl _
        · exact le_trans (not_lt.mp h) (hle r h2)
      · intro j hj
        exact absurd hj (Nat.not_lt_zero j)

/-- pyMinCons depends on the key function only through the strict order it
induces. -/
theorem pyMinCons_congr {α : Type} (f g : α → ℚ)
    (hfg : ∀ a b, f a < f b ↔ g a < g b) (x : α) (xs : List α) :
    pyMinCons f x xs = pyMinCons g x xs := by
  induction xs generalizing x with
  | nil => rfl
  | cons y ys ih =>
    simp only [pyMinCons]
    rw [ih y]
    by_cases h : g (pyMinCons g y ys) < g x
    · rw [if_pos ((hfg _ _).mpr h), if_pos h]
    · rw [if_neg (fun hc => h ((hfg _ _).mp hc)), if_neg h]

/-- The estimated fuel cost is the route distance times a fixed positive
rational constant. -/
theorem estimated_fuel_cost_eq (r : RouteOption) :
    r.estimated_fuel_cost = r.distance_meters * (4349597 / 16000000000) := by
  unfold RouteOption.estimated_fuel_cost RouteOption.distance_km
  norm_num
  ring

/-- Comparison of estimated fuel costs is comparison of distances. -/
theorem estimated_fuel_cost_lt_iff (a b : RouteOption) :
    a.estimated_fuel_cost < b.estimated_fuel_cost ↔
      a.distance_meters < b.distance_meters := by
  rw [estimated_fuel_cost_eq, estimated_fuel_cost_eq]
  exact mul_lt_mul_right (by norm_num)

/-- Inserting into the distance-sorted list adds one to the length. -/
theorem insertByDistance_length (x : RouteOption) (l : List RouteOption) :
    (insertByDistance x l).length = l.length + 1 := by
  induction l with
  | nil => rfl
  | cons y ys ih =>
    simp only [insertByDistance]
    by_cases h : x.distance_meters ≤ y.distance_meters
    · rw [if_pos h]
      rfl
    · rw [if_neg h]
      simp [ih]

/-- Sorting by distance preserves the length. -/
theorem sortedByDistance_length (l : List RouteOption) :
    (sortedByDistance l).length = l.length := by
  induction l with
  | nil => rfl
  | cons x xs ih => simp [sortedByDistance, insertByDistance_length, ih]

/-- The head of the stable distance sort of a nonempty list is the first
element attaining the minimal distance. -/
theorem sortedByDistance_head (x : RouteOption) (xs : List RouteOption) :
    ∃ tl, sortedByDistance (x :: xs) =
      pyMinCons (fun r => r.distance_meters) x xs :: tl := by
  induction xs generalizing x with
  | nil => exact ⟨[], rfl⟩
  | cons y ys ih =>
    obtain ⟨tl, htl⟩ := ih y
    have hs : sortedByDistance (x :: y :: ys) =
        insertByDistance x (sortedByDistance (y :: ys)) := rfl
    rw [hs, htl]
    simp only [insertByDistance, pyMinCons]
    by_cases h : x.distance_meters ≤
        (pyMinCons (fun r => r.distance_meters) y ys).distance_meters
    · rw [if_pos h, if_neg (not_lt.mpr h)]
      exact ⟨_ :: tl, rfl⟩
    · rw [if_neg h, if_pos (not_le.mp h)]
      exact ⟨insertByDistance x tl, rfl⟩

/-- When the first attempt succeeds, _make_request makes exactly one
attempt, sleeps never, and returns the decoded response. -/
theorem makeRequest_first_ok {J : Type} (m : Int) (hm : 0 < m)
    (outcomes : Nat → Except String J) (j : J) (h0 : outcomes 0 = .ok j) :
    makeRequest m outcomes = (1, [], Except.ok (some j)) := by
  unfold makeRequest pyRange
  have h1 : m.toNat = (m.toNat - 1) + 1 := by omega
  rw [h1, List.range_succ_eq_map]
  simp [requestLoop, h0]

/-- With a non-positive retry budget, _make_request makes no attempt and
falls off the loop, implicitly returning None. -/
theorem makeRequest_nonpos {J : Type} (m : Int) (hm : m ≤ 0)
    (outcomes : Nat → Except String J) :
    makeRequest m outcomes = (0, [], Except.ok none) := by
  unfold makeRequest pyRange
  have h1 : m.toNat = 0 := by omega
  rw [h1]
  rfl

/-- Reduction of get_routes once the transported request is known to
deliver a decoded response. -/
theorem getRoutes_resp (mr : Int)
    (transport : String → List (String × String) → Nat → Except String RouteResponse)
    (profile : RouteProfile) (o d : ℚ × ℚ) (alt : Int) (g s : Bool)
    (resp : RouteResponse)
    (h : (makeRequest mr (transport (routeEndpoint profile o d)
        (routeParams alt g s))).2.2 = Except.ok (some resp)) :
    getRoutes mr transport profile o d alt g s =
      getRoutesFromResponse o d s resp := by
  unfold getRoutes
  rw [h]

/-- Reduction of get_distance_matrix once the transported request is known
to deliver a decoded response. -/
theorem getDistanceMatrix_resp (mr : Int)
    (transport : String → List (String × String) → Nat → Except String TableResponse)
    (profile : RouteProfile) (coords : List (ℚ × ℚ))
    (src dst : Option (List Int)) (resp : TableResponse)
    (h : (makeRequest mr (transport (tableEndpoint profile coords)
        (tableParams src dst))).2.2 = Except.ok (some resp)) :
    getDistanceMatrix mr transport profile coords src dst =
      (if resp.code ≠ some okCode then
        Except.error (PyError.tableServiceError (resp.message.getD unknownErrorMsg))
      else
        Except.ok { durations := resp.durations.getD []
                    distances := resp.distances.getD []
                    sources := resp.sources.getD []
                    destinations := resp.destinations.getD [] }) := by
  unfold getDistanceMatrix
  rw [h]

/-- A successful get_routes call went through the response-handling path on
some decoded response. -/
theorem getRoutes_ok_elim (mr : Int)
    (transport : String → List (String × String) → Nat → Except String RouteResponse)
    (profile : RouteProfile) (o d : ℚ × ℚ) (alt : Int) (g s : Bool)
    (result : RouteResult)
    (h : getRoutes mr transport profile o d alt g s = .ok result) :
    ∃ resp, getRoutesFromResponse o d s resp = .ok result := by
  unfold getRoutes at h
  split at h
  · exact absurd h (by simp)
  · exact absurd h (by simp)
  · exact ⟨_, h⟩

/-- Inversion of a successful response handling in get_routes: the routes
list is the nonempty parsed list, the fastest route is the duration minimum
over it, and the shortest route is the head of the distance-sorted list
guarded by the more-than-one-route test. -/
theorem getRoutesFromResponse_ok_elim (o d : ℚ × ℚ) (s : Bool)
    (resp : RouteResponse) (result : RouteResult)
    (h : getRoutesFromResponse o d s resp = .ok result) :
    ∃ r0 rs, result.routes = r0 :: rs ∧
      result.fastest_route = pyMinCons (fun r => r.duration_seconds) r0 rs ∧
      result.shortest_route =
        (if 1 < (sortedByDistance (r0 :: rs)).length
         then (sortedByDistance (r0 :: rs)).head? else none) := by
  unfold getRoutesFromResponse at h
  split at h
  · exact absurd h (by simp)
  · split at h
    · exact absurd h (by simp)
    · exact absurd h (by simp)
    · rw [Except.ok.injEq] at h
      subst h
      exact ⟨_, _, rfl, rfl, rfl⟩

/-- C1: for every service response with status code Ok and an empty route
list, get_routes fails with the no-route-found error, which is a different
PyError from the routing-service error raised when the status code is not
Ok; and the routing-service error carries the service-supplied message. -/
theorem getRoutes_noRoute_vs_serviceError (mr : Int) (hm : 0 < mr)
    (transport : String → List (String × String) → Nat → Except String RouteResponse)
    (resp : RouteResponse) (ht : ∀ e p, transport e p 0 = .ok resp)
    (profile : RouteProfile) (o d : ℚ × ℚ) (alt : Int) (g s : Bool) :
    (resp.code = some okCode → resp.routes.getD [] = [] →
      getRoutes mr transport profile o d alt g s = .error .noRouteFoundError) ∧
    (resp.code ≠ some okCode →
      getRoutes mr transport profile o d alt g s =
        .error (.routingServiceError (resp.message.getD unknownErrorMsg))) ∧
    (∀ msg, PyError.noRouteFoundError ≠ PyError.routingServiceError msg) := by
  have hmk : (makeRequest mr (transport (routeEndpoint profile o d)
      (routeParams alt g s))).2.2 = Except.ok (some resp) := by
    rw [makeRequest_first_ok mr hm _ resp (ht _ _)]
  have hstep := getRoutes_resp mr transport profile o d alt g s resp hmk
  refine ⟨?_, ?_, ?_⟩
  · intro hcode hroutes
    rw [hstep]
    unfold getRoutesFromResponse
    rw [if_neg (fun hc => hc hcode), hroutes]
    rfl
  · intro hcode
    rw [hstep]
    unfold getRoutesFromResponse
    rw [if_pos hcode]
  · intro msg hne
    exact PyError.noConfusion hne

/-- C1 witness: on a response with code Ok and an empty route list the call
fails with the no-route-found error, and on an InvalidQuery response it
fails with the routing-service error carrying the supplied message. -/
theorem getRoutes_noRoute_vs_serviceError_w :
    getRoutes 3 (constTransport respOkEmpty) RouteProfile.driving
        (0, 0) (1, 1) 3 false false = .error PyError.noRouteFoundError ∧
    getRoutes 3 (constTransport respBadReq) RouteProfile.driving
        (0, 0) (1, 1) 3 false false =
      .error (PyError.routingServiceError badMsg) := by
  constructor
  · exact (getRoutes_noRoute_vs_serviceError 3 (by norm_num)
      (constTransport respOkEmpty) respOkEmpty (fun e p => rfl)
      RouteProfile.driving (0, 0) (1, 1) 3 false false).1 rfl rfl
  · exact (getRoutes_noRoute_vs_serviceError 3 (by norm_num)
      (constTransport respBadReq) respBadReq (fun e p => rfl)
      RouteProfile.driving (0, 0) (1, 1) 3 false false).2.1 (by decide)

/-- C2: with max_retries = 3 and a request failing on every attempt,
_make_request makes exactly 3 attempts, sleeps 2 ^ 0 and 2 ^ 1 time units
between the consecutive attempts, and raises the transport error wrapping
the last underlying failure and reporting 3 attempts. -/
theorem makeRequest_all_fail_three (outcomes : Nat → Except String RouteResponse)
    (e : Nat → String) (h : ∀ n, outcomes n = .error (e n)) :
    makeRequest 3 outcomes =
      (3, [2 ^ 0, 2 ^ 1], .error (.transportError 3 (e 2))) := by
  have h3 : pyRange 3 = [0, 1, 2] := rfl
  unfold makeRequest
  rw [h3]
  simp only [requestLoop, h 0, h 1, h 2]
  norm_num

/-- C2 witness: a transport refusing the connection on every attempt. -/
theorem makeRequest_all_fail_three_w :
    makeRequest 3 (fun _ => (Except.error connRefusedMsg :
        Except String RouteResponse)) =
      (3, [2 ^ 0, 2 ^ 1], .error (.transportError 3 connRefusedMsg)) :=
  makeRequest_all_fail_three (fun _ => Except.error connRefusedMsg)
    (fun _ => connRefusedMsg) (fun _ => rfl)

/-- C3: every RouteResult constructed by get_routes has a nonempty route
list, and its fastest_route is the first element of the routes, in service
order, attaining the minimal duration. -/
theorem getRoutes_fastest_firstMin (mr : Int)
    (transport : String → List (String × String) → Nat → Except String RouteResponse)
    (profile : RouteProfile) (o d : ℚ × ℚ) (alt : Int) (g s : Bool)
    (result : RouteResult)
    (h : getRoutes mr transport profile o d alt g s = .ok result) :
    result.routes ≠ [] ∧
    firstMinBy (fun r => r.duration_seconds) result.routes result.fastest_route := by
  obtain ⟨resp, hr⟩ := getRoutes_ok_elim mr transport profile o d alt g s result h
  obtain ⟨r0, rs, hroutes, hfast, -⟩ :=
    getRoutesFromResponse_ok_elim o d s resp result hr
  rw [hroutes, hfast]
  exact ⟨List.cons_ne_nil r0 rs, pyMinCons_firstMinBy _ r0 rs⟩

/-- C3 witness: for the two-route response, the fastest route is the first
route (600 s versus 700 s). -/
theorem getRoutes_fastest_firstMin_w :
    resultTwo.routes ≠ [] ∧
    firstMinBy (fun r => r.duration_seconds) resultTwo.routes
      resultTwo.fastest_route :=
  getRoutes_fastest_firstMin 3 (constTransport respTwo) RouteProfile.driving
    (0, 0) (1, 1) 3 false false resultTwo rfl

/-- C4: in every RouteResult constructed by get_routes, shortest_route is
unset when exactly one route was returned, and with two or more routes it is
set to the first element of the routes, in service order, attaining the
minimal distance. -/
theorem getRoutes_shortest_spec (mr : Int)
    (transport : String → List (String × String) → Nat → Except String RouteResponse)
    (profile : RouteProfile) (o d : ℚ × ℚ) (alt : Int) (g s : Bool)
    (result : RouteResult)
    (h : getRoutes mr transport profile o d alt g s = .ok result) :
    (result.routes.length = 1 → result.shortest_route = none) ∧
    (1 < result.routes.length →
      ∃ m, result.shortest_route = some m ∧
        firstMinBy (fun r => r.distance_meters) result.routes m) := by
  obtain ⟨resp, hr⟩ := getRoutes_ok_elim mr transport profile o d alt g s result h
  obtain ⟨r0, rs, hroutes, -, hshort⟩ :=
    getRoutesFromResponse_ok_elim o d s resp result hr
  constructor
  · intro hlen
    rw [hroutes] at hlen
    have hrs : rs = [] := by
      simpa using hlen
    subst hrs
    rw [hshort]
    simp [sortedByDistance_length]
  · intro hlen
    rw [hroutes] at hlen
    obtain ⟨tl, htl⟩ := sortedByDistance_head r0 rs
    have hcond : 1 < (sortedByDistance (r0 :: rs)).length := by
      rw [sortedByDistance_length]
      exact hlen
    rw [hshort, if_pos hcond, htl]
    refine ⟨_, rfl, ?_⟩
    rw [hroutes]
    exact pyMinCons_firstMinBy _ r0 rs

/-- C4 witness: for the two-route response, the shortest route is set and is
the second route (4000 m versus 5000 m). -/
theorem getRoutes_shortest_spec_w :
    ∃ m, resultTwo.shortest_route = some m ∧
      firstMinBy (fun r => r.distance_meters) resultTwo.routes m :=
  (getRoutes_shortest_spec 3 (constTransport respTwo) RouteProfile.driving
    (0, 0) (1, 1) 3 false false resultTwo rfl).2 (by decide)

/-- C5: the truck suitability score is the step function of the duration in
seconds mapping the interval from 0 up to 300 to 0.9, from 300 up to 900 to
0.8, from 900 up to 1800 to 0.7, and everything from 1800 on to 0.6; in
particular a duration of 299 scores 0.9, of 300 scores 0.8, and of 1800
scores 0.6. -/
theorem truck_suitability_step (r : RouteOption) :
    (0 ≤ r.duration_seconds → r.duration_seconds < 300 →
      r.truck_suitability_score = 0.9) ∧
    (300 ≤ r.duration_seconds → r.duration_seconds < 900 →
      r.truck_suitability_score = 0.8) ∧
    (900 ≤ r.duration_seconds → r.duration_seconds < 1800 →
      r.truck_suitability_score = 0.7) ∧
    (1800 ≤ r.duration_seconds → r.truck_suitability_score = 0.6) ∧
    (r.duration_seconds = 299 → r.truck_suitability_score = 0.9) ∧
    (r.duration_seconds = 300 → r.truck_suitability_score = 0.8) ∧
    (r.duration_seconds = 1800 → r.truck_suitability_score = 0.6) := by
  unfold RouteOption.truck_suitability_score
  refine ⟨?_, ?_, ?_, ?_, ?_, ?_, ?_⟩
  · intro h0 h1
    rw [if_pos h1]
  · intro h0 h1
    rw [if_neg (not_lt.mpr h0), if_pos h1]
  · intro h0 h1
    rw [if_neg (not_lt.mpr (by linarith)), if_neg (not_lt.mpr h0), if_pos h1]
  · intro h0
    rw [if_neg (not_lt.mpr (by linarith)), if_neg (not_lt.mpr (by linarith)),
      if_neg (not_lt.mpr h0)]
  · intro h
    rw [h, if_pos (by norm_num)]
  · intro h
    rw [h, if_neg (by norm_num), if_pos (by norm_num)]
  · intro h
    rw [h, if_neg (by norm_num), if_neg (by norm_num), if_neg (by norm_num)]

/-- C5 witness: the three boundary durations evaluated concretely. -/
theorem truck_suitability_step_w :
    (roDur 299).truck_suitability_score = 0.9 ∧
    (roDur 300).truck_suitability_score = 0.8 ∧
    (roDur 1800).truck_suitability_score = 0.6 :=
  ⟨(truck_suitability_step (roDur 299)).2.2.2.2.1 rfl,
   (truck_suitability_step (roDur 300)).2.2.2.2.2.1 rfl,
   (truck_suitability_step (roDur 1800)).2.2.2.2.2.2 rfl⟩

/-- C6: for every RouteResult with a nonempty route list, the most efficient
route (the min by estimated fuel cost) is exactly the minimum-distance route
of the set, the first one in input order on ties, since the fuel cost is a
strictly monotone function of the distance alone. -/
theorem most_efficient_eq_min_distance (res : RouteResult) (r0 : RouteOption)
    (rs : List RouteOption) (h : res.routes = r0 :: rs) :
    res.most_efficient_route =
      some (pyMinCons (fun r => r.distance_meters) r0 rs) ∧
    firstMinBy (fun r => r.distance_meters) res.routes
      (pyMinCons (fun r => r.distance_meters) r0 rs) := by
  constructor
  · unfold RouteResult.most_efficient_route
    rw [h]
    simp only [pyMinBy]
    rw [pyMinCons_congr RouteOption.estimated_fuel_cost
      (fun r => r.distance_meters) (fun a b => estimated_fuel_cost_lt_iff a b) r0 rs]
  · rw [h]
    exact pyMinCons_firstMinBy _ r0 rs

/-- C6 witness: in the two-route result, the most efficient route is the
4000 m route, which is also the distance minimum. -/
theorem most_efficient_eq_min_distance_w :
    resultTwo.most_efficient_route =
      some (pyMinCons (fun r => r.distance_meters) roA [roB]) ∧
    firstMinBy (fun r => r.distance_meters) resultTwo.routes
      (pyMinCons (fun r => r.distance_meters) roA [roB]) :=
  most_efficient_eq_min_distance resultTwo roA [roB] rfl

/-- C7: every route entry parsed by get_routes defaults distance and
duration to 0 when absent, defaults weight to the entry's duration when
absent, defaults the weight label to the routability literal when absent,
leaves steps absent whenever include_steps was not requested, and otherwise
takes the steps from the first leg only. -/
theorem parseRoute_defaults (b : Bool) (rd : RouteData) (ro : RouteOption)
    (h : parseRoute b rd = .ok ro) :
    (rd.distance = none → ro.distance_meters = 0) ∧
    (rd.duration = none → ro.duration_seconds = 0) ∧
    (rd.weight = none → ro.weight = ro.duration_seconds) ∧
    (rd.weight_name = none → ro.weight_name = routabilityName) ∧
    (b = false → ro.steps = none) ∧
    (b = true → ∀ leg rest, rd.legs = some (leg :: rest) →
      ro.steps = some (leg.steps.getD [])) := by
  cases b with
  | false =>
    simp only [parseRoute] at h
    rw [Except.ok.injEq] at h
    subst h
    refine ⟨?_, ?_, ?_, ?_, ?_, ?_⟩
    · intro hd
      simp [hd]
    · intro hd
      simp [hd]
    · intro hw
      simp [hw]
    · intro hw
      simp [hw]
    · intro _
      rfl
    · intro hb
      exact Bool.noConfusion hb
  | true =>
    simp only [parseRoute] at h
    split at h
    · exact absurd h (by simp)
    · rw [Except.ok.injEq] at h
      subst h
      rename_i heq
      refine ⟨?_, ?_, ?_, ?_, ?_, ?_⟩
      · intro hd
        simp [hd]
      · intro hd
        simp [hd]
      · intro hw
        simp [hw]
      · intro hw
        simp [hw]
      · intro hb
        exact Bool.noConfusion hb
      · intro _ leg2 rest2 hlegs
        rw [hlegs] at heq
        rw [Option.getD_some] at heq
        rw [List.cons.injEq] at heq
        rw [heq.1]

/-- C7 witness: parsing the all-keys-absent entry with include_steps set
yields the zero distances, the duration-valued weight, the routability
label, and the empty step list taken from the fallback first leg. -/
theorem parseRoute_defaults_w :
    roNoneSteps.distance_meters = 0 ∧ roNoneSteps.duration_seconds = 0 ∧
    roNoneSteps.weight = roNoneSteps.duration_seconds ∧
    roNoneSteps.weight_name = routabilityName :=
  ⟨(parseRoute_defaults true rdNone roNoneSteps rfl).1 rfl,
   (parseRoute_defaults true rdNone roNoneSteps rfl).2.1 rfl,
   (parseRoute_defaults true rdNone roNoneSteps rfl).2.2.1 rfl,
   (parseRoute_defaults true rdNone roNoneSteps rfl).2.2.2.1 rfl⟩

/-- C8: get_distance_matrix fails with the table-request service error
carrying the service-supplied message whenever the status code is not the
Ok sentinel, and on success it returns the four response fields, each
defaulting to the empty list when absent; the coordinate list, including the
empty one, never by itself makes the call fail. -/
theorem getDistanceMatrix_spec (mr : Int) (hm : 0 < mr)
    (transport : String → List (String × String) → Nat → Except String TableResponse)
    (resp : TableResponse) (ht : ∀ e p, transport e p 0 = .ok resp)
    (profile : RouteProfile) (coords : List (ℚ × ℚ))
    (src dst : Option (List Int)) :
    (resp.code ≠ some okCode →
      getDistanceMatrix mr transport profile coords src dst =
        .error (.tableServiceError (resp.message.getD unknownErrorMsg))) ∧
    (resp.code = some okCode →
      getDistanceMatrix mr transport profile coords src dst =
        .ok { durations := resp.durations.getD []
              distances := resp.distances.getD []
              sources := resp.sources.getD []
              destinations := resp.destinations.getD [] }) := by
  have hmk : (makeRequest mr (transport (tableEndpoint profile coords)
      (tableParams src dst))).2.2 = Except.ok (some resp) := by
    rw [makeRequest_first_ok mr hm _ resp (ht _ _)]
  have hstep := getDistanceMatrix_resp mr transport profile coords src dst resp hmk
  constructor
  · intro hcode
    rw [hstep, if_pos hcode]
  · intro hcode
    rw [hstep, if_neg (fun hc => hc hcode)]

/-- C8 witness: on the empty coordinate list, a success response yields the
four collected fields (with empty defaults for the absent index echoes) and
a non-Ok response yields the table service error with its message. -/
theorem getDistanceMatrix_spec_w :
    getDistanceMatrix 3 (constTransport tableRespA) RouteProfile.driving
        [] none none =
      .ok { durations := [[0, 10], [12, 0]], distances := [[0, 100], [120, 0]],
            sources := [], destinations := [] } ∧
    getDistanceMatrix 3 (constTransport tableRespBad) RouteProfile.driving
        [] none none =
      .error (PyError.tableServiceError badMsg) := by
  constructor
  · exact (getDistanceMatrix_spec 3 (by norm_num) (constTransport tableRespA)
      tableRespA (fun e p => rfl) RouteProfile.driving [] none none).2 rfl
  · exact (getDistanceMatrix_spec 3 (by norm_num) (constTransport tableRespBad)
      tableRespBad (fun e p => rfl) RouteProfile.driving [] none none).1 (by decide)

/-- C9: with a non-positive retry budget, _make_request makes zero attempts
and falls off the loop yielding None instead of raising the transport
error, and a subsequent get_routes or get_distance_matrix call then fails
with the AttributeError of reading the missing response, an error distinct
from every constructor of the documented taxonomy. -/
theorem makeRequest_nonpos_spec (mr : Int) (hm : mr ≤ 0)
    (rt : String → List (String × String) → Nat → Except String RouteResponse)
    (tt : String → List (String × String) → Nat → Except String TableResponse)
    (profile : RouteProfile) (o d : ℚ × ℚ) (alt : Int) (g s : Bool)
    (coords : List (ℚ × ℚ)) (src dst : Option (List Int)) :
    (∀ outcomes : Nat → Except String RouteResponse,
      makeRequest mr outcomes = (0, [], Except.ok none)) ∧
    getRoutes mr rt profile o d alt g s = .error .noneTypeAttributeError ∧
    getDistanceMatrix mr tt profile coords src dst =
      .error .noneTypeAttributeError ∧
    (∀ a msg, PyError.noneTypeAttributeError ≠ PyError.transportError a msg) ∧
    (∀ msg, PyError.noneTypeAttributeError ≠ PyError.routingServiceError msg) ∧
    (∀ msg, PyError.noneTypeAttributeError ≠ PyError.tableServiceError msg) ∧
    PyError.noneTypeAttributeError ≠ PyError.noRouteFoundError := by
  refine ⟨fun outcomes => makeRequest_nonpos mr hm outcomes, ?_, ?_, ?_, ?_, ?_, ?_⟩
  · unfold getRoutes
    rw [makeRequest_nonpos mr hm]
  · unfold getDistanceMatrix
    rw [makeRequest_nonpos mr hm]
  · intro a msg hne
    exact PyError.noConfusion hne
  · intro msg hne
    exact PyError.noConfusion hne
  · intro msg hne
    exact PyError.noConfusion hne
  · intro hne
    exact PyError.noConfusion hne

/-- C9 witness: with max_retries = 0 both calls fail with the AttributeError
on the missing response. -/
theorem makeRequest_nonpos_spec_w :
    getRoutes 0 (constTransport respTwo) RouteProfile.driving
        (0, 0) (1, 1) 3 false false = .error PyError.noneTypeAttributeError ∧
    getDistanceMatrix 0 (constTransport tableRespA) RouteProfile.driving
        [] none none = .error PyError.noneTypeAttributeError :=
  ⟨(makeRequest_nonpos_spec 0 (by norm_num) (constTransport respTwo)
      (constTransport tableRespA) RouteProfile.driving (0, 0) (1, 1) 3 false false
      [] none none).2.1,
   (makeRequest_nonpos_spec 0 (by norm_num) (constTransport respTwo)
      (constTransport tableRespA) RouteProfile.driving (0, 0) (1, 1) 3 false false
      [] none none).2.2.1⟩

/-- C10: with include_steps set, a route entry whose legs key holds an
explicitly empty list makes parsing fail with the IndexError of indexing
its first element (and that failure propagates out of the response
handling of get_routes), whereas the one-empty-dict fallback applies only
when the legs key is entirely absent, in which case parsing succeeds with
an empty step list. -/
theorem parseRoute_empty_legs (rd : RouteData) :
    (rd.legs = some [] → parseRoute true rd = .error .indexError) ∧
    (rd.legs = none →
      ∃ ro, parseRoute true rd = .ok ro ∧ ro.steps = some []) ∧
    (∀ (resp : RouteResponse) (o d : ℚ × ℚ),
      resp.code = some okCode → resp.routes = some [rd] → rd.legs = some [] →
      getRoutesFromResponse o d true resp = .error .indexError) := by
  have herr : rd.legs = some [] → parseRoute true rd = .error .indexError := by
    intro h
    simp only [parseRoute]
    rw [h]
    rfl
  refine ⟨herr, ?_, ?_⟩
  · intro h
    refine ⟨{ distance_meters := rd.distance.getD 0
              duration_seconds := rd.duration.getD 0
              weight := rd.weight.getD (rd.duration.getD 0)
              weight_name := rd.weight_name.getD routabilityName
              geometry := rd.geometry
              steps := some [] }, ?_, rfl⟩
    simp only [parseRoute]
    rw [h]
    rfl
  · intro resp o d hcode hroutes hlegs
    unfold getRoutesFromResponse
    rw [if_neg (fun hc => hc hcode), hroutes]
    simp only [Option.getD_some, parseRoutes, herr hlegs]

/-- C10 witness: the entry whose legs key is the empty list fails with the
IndexError, and the entry with no legs key parses with an empty step list. -/
theorem parseRoute_empty_legs_w :
    parseRoute true rdEmptyLegs = .error PyError.indexError ∧
    (∃ ro, parseRoute true rdNone = .ok ro ∧ ro.steps = some []) :=
  ⟨(parseRoute_empty_legs rdEmptyLegs).1 rfl,
   (parseRoute_empty_legs rdNone).2.1 rfl⟩
